import Mathlib

/-!
Verification of the session/authentication lifecycle and the request-retry
wrapper of the `Ring` class (`ring_doorbell/__init__.py`).

The Python code is shallowly embedded as pure Lean functions.  Mutable object
state (`self.is_connected`, `self.token`, `self.params`, `self.auth`,
`self.last_refresh`, `self.cache`) becomes an explicit `RingState` threaded
through each operation.  External effects are supplied by oracles:

* `OAuthEnv` gives the results of `Auth.fetch_token` / `Auth.refresh_tokens`
  and the wall clock `dt.now()`;
* `queryT : Nat → Resp` gives the response to the i-th request issued inside
  the `query` retry loop;
* `authT : Nat → Option Resp` gives the response to the i-th POST issued by
  `_authenticate` (`none` models a falsy/absent response, as produced by a
  fake transport; a real `requests` response with status ≥ 400 is also falsy).

Every operation additionally returns a trace of observable events
(network calls, cache writes, `is_connected` assignments), so that claims
about which calls happen, and in which order, can be stated and decided.
Exceptions (`raise` in Python) are modelled with `Except Exc`.
-/

namespace RingModel

/-- Python dict of query parameters: keys are strings, values are strings or
`None` (the code stores `self.token`, which may be `None`, as a value). -/
abbrev Params := List (String × Option String)

/-- OAuth token dict as used by the code: `access_token`, `refresh_token`,
`expires_in` (seconds). -/
structure AuthTok where
  access_token : String
  refresh_token : String
  expires_in : Nat
deriving Repr, DecidableEq

/-- An HTTP response as observed by the code: its status code, the parsed
JSON body (abstract, as returned by `req.json()` on a GET), and the value of
`req.json()["profile"]["authentication_token"]` used by the 201 branch of
`_authenticate`. -/
structure Resp where
  status_code : Nat
  jsonBody : String
  profileToken : Option String
deriving Repr, DecidableEq

/-- Truthiness of a `requests` response: `bool(resp)` is `resp.ok`, which is
false exactly when `raise_for_status` would raise (status in 400..599). -/
def Resp.ok (r : Resp) : Bool := !(400 ≤ r.status_code && r.status_code < 600)

/-- Truthiness of `req` when the transport may have produced no response at
all (`None` from a fake transport). -/
def respTruthy : Option Resp → Bool
  | none => false
  | some r => r.ok

/-- Exceptions the embedded code can raise. -/
inductive Exc
  | httpError (status : Nat)
  | attrError
deriving Repr, DecidableEq

/-- `requests.Response.raise_for_status`: raises an HTTPError for status
400..599, does nothing otherwise; calling it on `None` is an attribute
error. -/
def raise_for_status : Option Resp → Except Exc Unit
  | none => Except.error Exc.attrError
  | some r =>
      if 400 ≤ r.status_code ∧ r.status_code < 600 then
        Except.error (Exc.httpError r.status_code)
      else Except.ok ()

/-- The persisted cache record: keys `account`, `token`, `auth`. -/
structure CacheRecord where
  account : Option String
  token : Option String
  auth : Option AuthTok
deriving Repr, DecidableEq

def emptyCacheRecord : CacheRecord := ⟨none, none, none⟩

/-- The on-disk cache file as seen at construction time. -/
inductive CacheFile
  | absent
  | corrupted
  | valid (rec : CacheRecord)
deriving Repr, DecidableEq

/-- Modelled from the spec: `_exists_cache` (`ring_doorbell.utils`, not under
`src/`) reports whether the cache file exists. -/
def exists_cache : CacheFile → Bool
  | CacheFile.absent => false
  | _ => true

/-- Modelled from the spec: `_read_cache` (`ring_doorbell.utils`, not under
`src/`).  Per the spec, "Cache corruption (missing/malformed fields) is
treated as cache absent": a corrupted or malformed file yields the default
record whose fields are all `none` (in particular `token = none`), which the
caller then discards. -/
def read_cache : CacheFile → CacheRecord
  | CacheFile.valid r => r
  | _ => emptyCacheRecord

/-- Modelled from the spec: `RETRY_TOKEN` (`ring_doorbell.const`, not under
`src/`), the default retry budget: "retries up to attempts times (default
small constant, e.g. 3)". -/
def RETRY_TOKEN : Nat := 3

/-- Modelled from the spec: `API_VERSION` (`ring_doorbell.const`, not under
`src/`), an opaque version string sent as the `api_version` query parameter;
its concrete value is immaterial to every claim. -/
def API_VERSION : String := "9"

/-- The dict `\x7b"api_version": API_VERSION, "auth_token": self.token\x7d`
built by `_authenticate` and `_process_cached_session`. -/
def sessionParams (tok : Option String) : Params :=
  [("api_version", some API_VERSION), ("auth_token", tok)]

/-- Mutable state of a `Ring` object. -/
structure RingState where
  is_connected : Option Bool
  token : Option String
  params : Params
  auth : Option AuthTok
  last_refresh : Option Nat
  cache : CacheRecord
  debug : Bool
  username : String
  reuse_session : Bool
  persist_token : Bool
deriving Repr, DecidableEq

/-- Truthiness of `self.is_connected` (initially `None`). -/
def connTruthy : Option Bool → Bool
  | some b => b
  | none => false

/-- Modelled from the spec: the OAuth client (`ring_doorbell.auth.Auth`, not
under `src/`).  `fetch_token` posts the credentials and returns a fresh OAuth
token struct; `refresh_tokens` uses the refresh token and returns a fresh
struct; `now` is the wall clock `dt.now()` (frozen during one operation). -/
structure OAuthEnv where
  fetched : AuthTok
  refreshed : AuthTok
  now : Nat
deriving Repr, DecidableEq

/-- HTTP method of a `query` call. -/
inductive Method
  | GET
  | PUT
  | POST
deriving Repr, DecidableEq

/-- Observable events.  `request` is a request issued inside the `query`
retry loop (carrying the bearer token of its Authorization header and the
query parameters actually sent); `newSessionPost` is the password-session
POST to the new-session endpoint issued by `_authenticate`; `setConnected`
records every assignment to `self.is_connected`. -/
inductive Ev
  | fetchToken
  | refreshTokens
  | newSessionPost
  | persistPut
  | cacheWrite (c : CacheRecord)
  | request (m : Method) (bearer : String) (ps : Params)
  | authenticateCall
  | setConnected (b : Bool)
deriving Repr, DecidableEq

/-- Result of `query`: the raw response object, or parsed JSON. -/
inductive QRes
  | raw (r : Resp)
  | json (body : String)
deriving Repr, DecidableEq

/-- Output of `_get_oauth_token`. -/
structure TokOut where
  tok : String
  st : RingState
  tr : List Ev
deriving Repr, DecidableEq

/-- Output of `_authenticate` (and of construction). -/
structure AuthOut where
  res : Except Exc Bool
  st : RingState
  aIdx : Nat
  tr : List Ev

/-- Output of `query`. -/
structure QueryOut where
  res : Except Exc (Option QRes)
  st : RingState
  aIdx : Nat
  tr : List Ev

/-- `_get_oauth_token` (source lines 107-133).  No token: `fetch_token`
(note: `last_refresh` is NOT set on this path).  Token present: if
`last_refresh` is unset or `dt.now() ≥ last_refresh + expires_in`, call
`refresh_tokens` and set `last_refresh`; otherwise reuse the token. -/
def get_oauth_token (env : OAuthEnv) (s : RingState) : TokOut :=
  match s.auth with
  | none =>
      let a := env.fetched
      ⟨a.access_token, { s with auth := some a }, [Ev.fetchToken]⟩
  | some a =>
      match s.last_refresh with
      | none =>
          let a2 := env.refreshed
          ⟨a2.access_token,
            { s with auth := some a2, last_refresh := some env.now },
            [Ev.refreshTokens]⟩
      | some lr =>
          if lr + a.expires_in ≤ env.now then
            let a2 := env.refreshed
            ⟨a2.access_token,
              { s with auth := some a2, last_refresh := some env.now },
              [Ev.refreshTokens]⟩
          else
            ⟨a.access_token, s, []⟩

/-- Python `dict` assignment `d[k] = v`: replace in place if the key exists,
otherwise append. -/
def dinsert (k : String) (v : Option String) : Params → Params
  | [] => [(k, v)]
  | (k0, v0) :: d => if k0 = k then (k, v) :: d else (k0, v0) :: dinsert k v d

/-- Python `d.update(e)`: insert every binding of `e` into `d`, in order. -/
def dupdate (d e : Params) : Params :=
  e.foldl (fun acc kv => dinsert kv.1 kv.2 acc) d

/-- Python `d[k]` as a lookup: first binding wins (keys are unique in dicts
built by `dinsert`). -/
def dlookup : Params → String → Option (Option String)
  | [], _ => none
  | (k0, v0) :: d, k => if k0 = k then some v0 else dlookup d k

/-- The cache record written on successful authentication (source lines
187-191): `account`, `token`, `auth` taken from the current state. -/
def cacheOf (s : RingState) : CacheRecord :=
  ⟨some s.username, s.token, s.auth⟩

/-- The 200/201 success branch of `_authenticate` (source lines 165-193),
applied to the post-`_get_oauth_token` state: on 201 parse the session token
out of the profile; set `is_connected`, rebuild `self.params`; optionally PUT
the push token; optionally write the cache.  Returns the new state and the
events (excluding the POST itself). -/
def authSuccess (r : Resp) (s : RingState) : RingState × List Ev :=
  let s2 := if r.status_code = 201 then { s with token := r.profileToken } else s
  let s3 := { s2 with is_connected := some true, params := sessionParams s2.token }
  let evP : List Ev := if s3.persist_token then [Ev.persistPut] else []
  if s3.reuse_session then
    ({ s3 with cache := cacheOf s3 }, Ev.setConnected true :: evP ++ [Ev.cacheWrite (cacheOf s3)])
  else
    (s3, Ev.setConnected true :: evP)

/-- The retry loop of `_authenticate` (source lines 143-197).  `fuel` is the
number of remaining iterations (the Python loop `while loop <= attempts` runs
`attempts + 1` times); `aIdx` indexes the POST transport oracle; `lastReq` is
the response of the previous iteration, needed for the trailing
`req.raise_for_status()`. -/
def authLoop (env : OAuthEnv) (authT : Nat → Option Resp) (session : Option Resp) :
    Nat → Nat → RingState → Option Resp → AuthOut
  | 0, aIdx, s, lastReq =>
      let s1 := { s with is_connected := some false }
      match raise_for_status lastReq with
      | Except.error e => ⟨Except.error e, s1, aIdx, [Ev.setConnected false]⟩
      | Except.ok _ => ⟨Except.ok true, s1, aIdx, [Ev.setConnected false]⟩
  | fuel + 1, aIdx, s, _ =>
      let o := get_oauth_token env s
      let step : Option Resp × Nat × List Ev :=
        match session with
        | none => (authT aIdx, aIdx + 1, [Ev.newSessionPost])
        | some r => (some r, aIdx, [])
      let req := step.1
      let aIdx1 := step.2.1
      let evReq := step.2.2
      match req with
      | none =>
          let k := authLoop env authT session fuel aIdx1 o.st none
          ⟨k.res, k.st, k.aIdx, o.tr ++ evReq ++ k.tr⟩
      | some r =>
          if r.ok = false then
            let k := authLoop env authT session fuel aIdx1 o.st (some r)
            ⟨k.res, k.st, k.aIdx, o.tr ++ evReq ++ k.tr⟩
          else if r.status_code = 200 ∨ r.status_code = 201 then
            let p := authSuccess r o.st
            ⟨Except.ok true, p.1, aIdx1, o.tr ++ evReq ++ p.2⟩
          else
            let k := authLoop env authT session fuel aIdx1 o.st (some r)
            ⟨k.res, k.st, k.aIdx, o.tr ++ evReq ++ k.tr⟩

/-- `_authenticate(attempts, session)` (source lines 135-197). -/
def authenticate (env : OAuthEnv) (authT : Nat → Option Resp) (session : Option Resp)
    (attempts aIdx : Nat) (s : RingState) : AuthOut :=
  let k := authLoop env authT session (attempts + 1) aIdx s none
  ⟨k.res, k.st, k.aIdx, Ev.authenticateCall :: k.tr⟩

/-- The retry loop of `query` (source lines 229-276).  `bearer` is the
Authorization header token, computed once before the loop; `qIdx` indexes the
in-loop transport oracle; `aIdx` indexes the `_authenticate` POST oracle. -/
def queryLoop (env : OAuthEnv) (queryT : Nat → Resp) (authT : Nat → Option Resp)
    (method : Method) (raw : Bool) (extra : Params) (bearer : String) :
    Nat → Nat → Nat → RingState → QueryOut
  | 0, _, aIdx, s => ⟨Except.ok none, s, aIdx, []⟩
  | fuel + 1, qIdx, aIdx, s =>
      let merged :=
        if extra.isEmpty then (s.params, s)
        else
          let p := dupdate s.params extra
          (p, { s with params := p })
      let p := merged.1
      let s1 := merged.2
      let r := queryT qIdx
      if r.status_code = 401 then
        let s2 := { s1 with is_connected := some false }
        let a := authenticate env authT none RETRY_TOKEN aIdx s2
        match a.res with
        | Except.error e =>
            ⟨Except.error e, a.st, a.aIdx,
              Ev.request method bearer p :: Ev.setConnected false :: a.tr⟩
        | Except.ok _ =>
            let k := queryLoop env queryT authT method raw extra bearer fuel (qIdx + 1) a.aIdx a.st
            ⟨k.res, k.st, k.aIdx,
              Ev.request method bearer p :: Ev.setConnected false :: a.tr ++ k.tr⟩
      else if r.status_code = 200 ∨ r.status_code = 204 then
        let response : Option QRes :=
          if raw then some (QRes.raw r)
          else if method = Method.GET then some (QRes.json r.jsonBody)
          else none
        ⟨Except.ok response, s1, aIdx, [Ev.request method bearer p]⟩
      else
        let k := queryLoop env queryT authT method raw extra bearer fuel (qIdx + 1) aIdx s1
        ⟨k.res, k.st, k.aIdx, Ev.request method bearer p :: k.tr⟩

/-- `query(url, attempts, method, raw, extra_params, ...)` (source lines
199-280).  If `debug` is set and the object is not connected, a full
`_authenticate` runs before anything else; then the bearer header is built
once via `_get_oauth_token` and the retry loop runs `attempts + 1` times. -/
def query (env : OAuthEnv) (queryT : Nat → Resp) (authT : Nat → Option Resp)
    (method : Method) (raw : Bool) (extra : Params) (attempts aIdx : Nat)
    (s : RingState) : QueryOut :=
  if s.debug && !connTruthy s.is_connected then
    let a := authenticate env authT none RETRY_TOKEN aIdx s
    match a.res with
    | Except.error e => ⟨Except.error e, a.st, a.aIdx, a.tr⟩
    | Except.ok _ =>
        let o := get_oauth_token env a.st
        let k := queryLoop env queryT authT method raw extra o.tok (attempts + 1) 0 a.aIdx o.st
        ⟨k.res, k.st, k.aIdx, a.tr ++ o.tr ++ k.tr⟩
  else
    let o := get_oauth_token env s
    let k := queryLoop env queryT authT method raw extra o.tok (attempts + 1) 0 aIdx o.st
    ⟨k.res, k.st, k.aIdx, o.tr ++ k.tr⟩

/-- `_process_cached_session` (source lines 73-105).  A usable cache record
adopts the cached session token (and OAuth struct: at construction
`self.auth` is `None`, so a missing `auth` key and a `None` value coincide),
validates it with one raw GET, and on a 200 confirms authentication by
passing that response as `session`; every other path falls back to a full
`_authenticate`. -/
def process_cached_session (env : OAuthEnv) (queryT : Nat → Resp)
    (authT : Nat → Option Resp) (file : CacheFile) (aIdx : Nat) (s : RingState) : AuthOut :=
  if exists_cache file then
    let c := read_cache file
    let s1 := { s with cache := c }
    if c.token = none ∨ c.account = none ∨ c.account ≠ some s.username then
      authenticate env authT none RETRY_TOKEN aIdx s1
    else
      let s2 := { s1 with token := c.token, params := sessionParams c.token, auth := c.auth }
      let q := query env queryT authT Method.GET true [] RETRY_TOKEN aIdx s2
      match q.res with
      | Except.error e => ⟨Except.error e, q.st, q.aIdx, q.tr⟩
      | Except.ok qr =>
          match qr with
          | some (QRes.raw r) =>
              if r.ok ∧ r.status_code = 200 then
                let a := authenticate env authT (some r) RETRY_TOKEN q.aIdx q.st
                ⟨a.res, a.st, a.aIdx, q.tr ++ a.tr⟩
              else
                let a := authenticate env authT none RETRY_TOKEN q.aIdx q.st
                ⟨a.res, a.st, a.aIdx, q.tr ++ a.tr⟩
          | _ =>
              let a := authenticate env authT none RETRY_TOKEN q.aIdx q.st
              ⟨a.res, a.st, a.aIdx, q.tr ++ a.tr⟩
  else
    authenticate env authT none RETRY_TOKEN aIdx s

/-- The state built by `__init__` (source lines 37-64) before any network
activity.  `self.params` starts as `None` in Python; it is modelled as the
empty dict, since every claim exercises `query` only after it has been
assigned. -/
def initState (username : String) (debug reuse persist : Bool) : RingState :=
  ⟨none, none, [], none, none, ⟨some username, none, none⟩, debug, username, reuse, persist⟩

/-- The construction flow (source lines 66-71): reuse the cached session if
requested, otherwise authenticate from scratch. -/
def ringInit (env : OAuthEnv) (queryT : Nat → Resp) (authT : Nat → Option Resp)
    (file : CacheFile) (username : String) (debug reuse persist : Bool) : AuthOut :=
  let s0 := initState username debug reuse persist
  if reuse then process_cached_session env queryT authT file 0 s0
  else authenticate env authT none RETRY_TOKEN 0 s0

/-- Event classifiers and counters over traces. -/
def isReq : Ev → Bool
  | Ev.request _ _ _ => true
  | _ => false

def isAuthCall : Ev → Bool
  | Ev.authenticateCall => true
  | _ => false

def isPost : Ev → Bool
  | Ev.newSessionPost => true
  | _ => false

def reqCount (tr : List Ev) : Nat := tr.countP isReq

def authCount (tr : List Ev) : Nat := tr.countP isAuthCall

def postCount (tr : List Ev) : Nat := tr.countP isPost

/-- The requests issued inside the `query` retry loop, in order. -/
def requestEvents (tr : List Ev) : List (Method × String × Params) :=
  tr.filterMap (fun e =>
    match e with
    | Ev.request m b p => some (m, b, p)
    | _ => none)

/-- Number of `_authenticate` calls occurring strictly before the first
in-loop request of a trace. -/
def authBeforeReq : List Ev → Nat
  | [] => 0
  | e :: tr =>
      if isReq e then 0
      else if isAuthCall e then authBeforeReq tr + 1
      else authBeforeReq tr

/-- Whether the `query` retry loop, run with `fuel` remaining iterations from
response index `q`, ends its final iteration on a 401 (assuming every nested
re-authentication succeeds, so that no iteration aborts early). -/
def endsOn401 (queryT : Nat → Resp) : Nat → Nat → Bool
  | 0, _ => false
  | 1, q => (queryT q).status_code == 401
  | fuel + 2, q =>
      if (queryT q).status_code = 200 ∨ (queryT q).status_code = 204 then false
      else endsOn401 queryT (fuel + 1) (q + 1)

/-! ### Basic lemmas about `_get_oauth_token` -/

theorem oauth_st_shape (env : OAuthEnv) (s : RingState) :
    ∃ au lr, (get_oauth_token env s).st = { s with auth := au, last_refresh := lr } := by
  unfold get_oauth_token
  rcases hA : s.auth with _ | a
  · exact ⟨some env.fetched, s.last_refresh, rfl⟩
  · rcases hL : s.last_refresh with _ | lr
    · exact ⟨some env.refreshed, some env.now, rfl⟩
    · dsimp only
      by_cases hc : lr + a.expires_in ≤ env.now
      · rw [if_pos hc]
        exact ⟨some env.refreshed, some env.now, rfl⟩
      · rw [if_neg hc]
        exact ⟨s.auth, s.last_refresh, rfl⟩

theorem oauth_st_params (env : OAuthEnv) (s : RingState) :
    (get_oauth_token env s).st.params = s.params := by
  obtain ⟨au, lr, h⟩ := oauth_st_shape env s
  rw [h]

theorem oauth_st_is_connected (env : OAuthEnv) (s : RingState) :
    (get_oauth_token env s).st.is_connected = s.is_connected := by
  obtain ⟨au, lr, h⟩ := oauth_st_shape env s
  rw [h]

theorem oauth_st_token (env : OAuthEnv) (s : RingState) :
    (get_oauth_token env s).st.token = s.token := by
  obtain ⟨au, lr, h⟩ := oauth_st_shape env s
  rw [h]

theorem oauth_st_debug (env : OAuthEnv) (s : RingState) :
    (get_oauth_token env s).st.debug = s.debug := by
  obtain ⟨au, lr, h⟩ := oauth_st_shape env s
  rw [h]

theorem oauth_st_username (env : OAuthEnv) (s : RingState) :
    (get_oauth_token env s).st.username = s.username := by
  obtain ⟨au, lr, h⟩ := oauth_st_shape env s
  rw [h]

theorem oauth_st_reuse (env : OAuthEnv) (s : RingState) :
    (get_oauth_token env s).st.reuse_session = s.reuse_session := by
  obtain ⟨au, lr, h⟩ := oauth_st_shape env s
  rw [h]

theorem oauth_st_persist (env : OAuthEnv) (s : RingState) :
    (get_oauth_token env s).st.persist_token = s.persist_token := by
  obtain ⟨au, lr, h⟩ := oauth_st_shape env s
  rw [h]

theorem oauth_st_cache (env : OAuthEnv) (s : RingState) :
    (get_oauth_token env s).st.cache = s.cache := by
  obtain ⟨au, lr, h⟩ := oauth_st_shape env s
  rw [h]

theorem oauth_tr_cases (env : OAuthEnv) (s : RingState) :
    (get_oauth_token env s).tr = [] ∨ (get_oauth_token env s).tr = [Ev.fetchToken] ∨
      (get_oauth_token env s).tr = [Ev.refreshTokens] := by
  unfold get_oauth_token
  rcases hA : s.auth with _ | a
  · simp
  · rcases hL : s.last_refresh with _ | lr
    · simp
    · dsimp only
      by_cases hc : lr + a.expires_in ≤ env.now
      · rw [if_pos hc]; simp
      · rw [if_neg hc]; simp

/-- While the current OAuth token is inside its validity window,
`_get_oauth_token` reuses it: no network call, no state change. -/
theorem oauth_valid (env : OAuthEnv) (s : RingState) (a : AuthTok) (lr : Nat)
    (hA : s.auth = some a) (hL : s.last_refresh = some lr)
    (hv : env.now < lr + a.expires_in) :
    get_oauth_token env s = ⟨a.access_token, s, []⟩ := by
  unfold get_oauth_token
  rw [hA, hL]
  dsimp only
  rw [if_neg (by omega)]

theorem oauth_tr_clean (env : OAuthEnv) (s : RingState) :
    ∀ e ∈ (get_oauth_token env s).tr,
      isReq e = false ∧ isAuthCall e = false ∧ isPost e = false := by
  rcases oauth_tr_cases env s with h | h | h <;> rw [h] <;> intro e he <;> simp at he
  · rw [he]; exact ⟨rfl, rfl, rfl⟩
  · rw [he]; exact ⟨rfl, rfl, rfl⟩

/-! ### Lemmas about `_authenticate` -/

theorem countP_eq_zero_of_clean {p : Ev → Bool} {l : List Ev}
    (h : ∀ e ∈ l, p e = false) : l.countP p = 0 := by
  rw [List.countP_eq_zero]
  intro a ha
  simp [h a ha]

theorem authSuccess_tr_clean (r : Resp) (s : RingState) :
    ∀ e ∈ (authSuccess r s).2,
      isReq e = false ∧ isAuthCall e = false ∧ isPost e = false := by
  intro e he
  unfold authSuccess at he
  dsimp only at he
  split at he <;> split at he <;> simp at he <;>
    rcases he with rfl | he <;>
      first
        | exact ⟨rfl, rfl, rfl⟩
        | (rcases he with ⟨hp, rfl⟩ | rfl <;> exact ⟨rfl, rfl, rfl⟩)
        | (rcases he with ⟨hp, rfl⟩ <;> exact ⟨rfl, rfl, rfl⟩)

/-- Definitional unfolding of one `_authenticate` loop iteration when no
pre-supplied session response is given (a real POST is issued). -/
theorem authLoop_succ_none (env : OAuthEnv) (authT : Nat → Option Resp)
    (fuel aIdx : Nat) (s : RingState) (lastReq : Option Resp) :
    authLoop env authT none (fuel + 1) aIdx s lastReq =
      (let o := get_oauth_token env s
       match authT aIdx with
       | none =>
           let k := authLoop env authT none fuel (aIdx + 1) o.st none
           ⟨k.res, k.st, k.aIdx, o.tr ++ [Ev.newSessionPost] ++ k.tr⟩
       | some r =>
           if r.ok = false then
             let k := authLoop env authT none fuel (aIdx + 1) o.st (some r)
             ⟨k.res, k.st, k.aIdx, o.tr ++ [Ev.newSessionPost] ++ k.tr⟩
           else if r.status_code = 200 ∨ r.status_code = 201 then
             let p := authSuccess r o.st
             ⟨Except.ok true, p.1, aIdx + 1, o.tr ++ [Ev.newSessionPost] ++ p.2⟩
           else
             let k := authLoop env authT none fuel (aIdx + 1) o.st (some r)
             ⟨k.res, k.st, k.aIdx, o.tr ++ [Ev.newSessionPost] ++ k.tr⟩) := by
  rfl

/-- Definitional unfolding of one `_authenticate` loop iteration when the
pre-supplied session response is reused (no POST is issued). -/
theorem authLoop_succ_some (env : OAuthEnv) (authT : Nat → Option Resp) (r0 : Resp)
    (fuel aIdx : Nat) (s : RingState) (lastReq : Option Resp) :
    authLoop env authT (some r0) (fuel + 1) aIdx s lastReq =
      (let o := get_oauth_token env s
       if r0.ok = false then
         let k := authLoop env authT (some r0) fuel aIdx o.st (some r0)
         ⟨k.res, k.st, k.aIdx, o.tr ++ k.tr⟩
       else if r0.status_code = 200 ∨ r0.status_code = 201 then
         let p := authSuccess r0 o.st
         ⟨Except.ok true, p.1, aIdx, o.tr ++ p.2⟩
       else
         let k := authLoop env authT (some r0) fuel aIdx o.st (some r0)
         ⟨k.res, k.st, k.aIdx, o.tr ++ k.tr⟩) := by
  conv_lhs => unfold authLoop
  dsimp only
  by_cases hok : r0.ok = false
  · rw [if_pos hok, if_pos hok]
    simp
  · rw [if_neg hok, if_neg hok]
    by_cases hsc : r0.status_code = 200 ∨ r0.status_code = 201
    · rw [if_pos hsc, if_pos hsc]
      simp
    · rw [if_neg hsc, if_neg hsc]
      simp

theorem authLoop_tr_clean (env : OAuthEnv) (authT : Nat → Option Resp)
    (session : Option Resp) (fuel : Nat) :
    ∀ aIdx s lastReq e, e ∈ (authLoop env authT session fuel aIdx s lastReq).tr →
      isReq e = false ∧ isAuthCall e = false := by
  induction fuel with
  | zero =>
      intro aIdx s lastReq e he
      unfold authLoop at he
      rcases h : raise_for_status lastReq with exc | u <;> rw [h] at he <;>
        simp at he <;> subst he <;> exact ⟨rfl, rfl⟩
  | succ fuel ih =>
      intro aIdx s lastReq e he
      rcases hses : session with _ | r0
      · subst hses
        rw [authLoop_succ_none] at he
        dsimp only at he
        rcases hr : authT aIdx with _ | r <;> rw [hr] at he <;> dsimp only at he
        · rcases (List.mem_append.1 he) with h1 | h2
          · rcases (List.mem_append.1 h1) with h3 | h4
            · have := oauth_tr_clean env s e h3
              exact ⟨this.1, this.2.1⟩
            · simp at h4
              subst h4
              exact ⟨rfl, rfl⟩
          · exact ih _ _ _ e h2
        · by_cases hok : r.ok = false
          · rw [if_pos hok] at he
            rcases (List.mem_append.1 he) with h1 | h2
            · rcases (List.mem_append.1 h1) with h3 | h4
              · have := oauth_tr_clean env s e h3
                exact ⟨this.1, this.2.1⟩
              · simp at h4
                subst h4
                exact ⟨rfl, rfl⟩
            · exact ih _ _ _ e h2
          · rw [if_neg hok] at he
            by_cases hsc : r.status_code = 200 ∨ r.status_code = 201
            · rw [if_pos hsc] at he
              rcases (List.mem_append.1 he) with h1 | h2
              · rcases (List.mem_append.1 h1) with h3 | h4
                · have := oauth_tr_clean env s e h3
                  exact ⟨this.1, this.2.1⟩
                · simp at h4
                  subst h4
                  exact ⟨rfl, rfl⟩
              · have := authSuccess_tr_clean r (get_oauth_token env s).st e h2
                exact ⟨this.1, this.2.1⟩
            · rw [if_neg hsc] at he
              rcases (List.mem_append.1 he) with h1 | h2
              · rcases (List.mem_append.1 h1) with h3 | h4
                · have := oauth_tr_clean env s e h3
                  exact ⟨this.1, this.2.1⟩
                · simp at h4
                  subst h4
                  exact ⟨rfl, rfl⟩
              · exact ih _ _ _ e h2
      · subst hses
        rw [authLoop_succ_some] at he
        dsimp only at he
        by_cases hok : r0.ok = false
        · rw [if_pos hok] at he
          rcases (List.mem_append.1 he) with h1 | h2
          · have := oauth_tr_clean env s e h1
            exact ⟨this.1, this.2.1⟩
          · exact ih _ _ _ e h2
        · rw [if_neg hok] at he
          by_cases hsc : r0.status_code = 200 ∨ r0.status_code = 201
          · rw [if_pos hsc] at he
            rcases (List.mem_append.1 he) with h1 | h2
            · have := oauth_tr_clean env s e h1
              exact ⟨this.1, this.2.1⟩
            · have := authSuccess_tr_clean r0 (get_oauth_token env s).st e h2
              exact ⟨this.1, this.2.1⟩
          · rw [if_neg hsc] at he
            rcases (List.mem_append.1 he) with h1 | h2
            · have := oauth_tr_clean env s e h1
              exact ⟨this.1, this.2.1⟩
            · exact ih _ _ _ e h2

theorem authenticate_tr (env : OAuthEnv) (authT : Nat → Option Resp)
    (session : Option Resp) (attempts aIdx : Nat) (s : RingState) :
    (authenticate env authT session attempts aIdx s).tr =
      Ev.authenticateCall :: (authLoop env authT session (attempts + 1) aIdx s none).tr := rfl

theorem authenticate_countP_req (env : OAuthEnv) (authT : Nat → Option Resp)
    (session : Option Resp) (attempts aIdx : Nat) (s : RingState) :
    (authenticate env authT session attempts aIdx s).tr.countP isReq = 0 := by
  rw [authenticate_tr]
  rw [List.countP_cons]
  have h0 : (authLoop env authT session (attempts + 1) aIdx s none).tr.countP isReq = 0 :=
    countP_eq_zero_of_clean (fun e he => (authLoop_tr_clean env authT session _ _ _ _ e he).1)
  simp [h0, isReq]

theorem authenticate_countP_authCall (env : OAuthEnv) (authT : Nat → Option Resp)
    (session : Option Resp) (attempts aIdx : Nat) (s : RingState) :
    (authenticate env authT session attempts aIdx s).tr.countP isAuthCall = 1 := by
  rw [authenticate_tr]
  rw [List.countP_cons]
  have h0 : (authLoop env authT session (attempts + 1) aIdx s none).tr.countP isAuthCall = 0 :=
    countP_eq_zero_of_clean (fun e he => (authLoop_tr_clean env authT session _ _ _ _ e he).2)
  simp [h0, isAuthCall]

theorem oauth_countP_req (env : OAuthEnv) (s : RingState) :
    (get_oauth_token env s).tr.countP isReq = 0 :=
  countP_eq_zero_of_clean (fun e he => (oauth_tr_clean env s e he).1)

theorem oauth_countP_authCall (env : OAuthEnv) (s : RingState) :
    (get_oauth_token env s).tr.countP isAuthCall = 0 :=
  countP_eq_zero_of_clean (fun e he => (oauth_tr_clean env s e he).2.1)

theorem oauth_countP_post (env : OAuthEnv) (s : RingState) :
    (get_oauth_token env s).tr.countP isPost = 0 :=
  countP_eq_zero_of_clean (fun e he => (oauth_tr_clean env s e he).2.2)

theorem authSuccess_countP_post (r : Resp) (s : RingState) :
    (authSuccess r s).2.countP isPost = 0 :=
  countP_eq_zero_of_clean (fun e he => (authSuccess_tr_clean r s e he).2.2)

/-- If the first POST answered by the transport is a 200 or 201,
`_authenticate` succeeds on its first iteration. -/
theorem auth_first_success (env : OAuthEnv) (authT : Nat → Option Resp)
    (attempts aIdx : Nat) (s : RingState) (r : Resp)
    (hr : authT aIdx = some r) (hs : r.status_code = 200 ∨ r.status_code = 201) :
    authenticate env authT none attempts aIdx s =
      ⟨Except.ok true, (authSuccess r (get_oauth_token env s).st).1, aIdx + 1,
        Ev.authenticateCall :: (get_oauth_token env s).tr ++
          Ev.newSessionPost :: (authSuccess r (get_oauth_token env s).st).2⟩ := by
  have hok : ¬r.ok = false := by
    rcases hs with h | h <;> simp [Resp.ok, h]
  unfold authenticate
  rw [authLoop_succ_none]
  dsimp only
  rw [hr]
  dsimp only
  rw [if_neg hok, if_pos hs]
  simp

/-- With a pre-supplied 200/201 session response, `_authenticate` succeeds on
its first iteration and never POSTs. -/
theorem auth_with_session (env : OAuthEnv) (authT : Nat → Option Resp)
    (attempts aIdx : Nat) (s : RingState) (r0 : Resp)
    (hs : r0.status_code = 200 ∨ r0.status_code = 201) :
    authenticate env authT (some r0) attempts aIdx s =
      ⟨Except.ok true, (authSuccess r0 (get_oauth_token env s).st).1, aIdx,
        Ev.authenticateCall :: (get_oauth_token env s).tr ++
          (authSuccess r0 (get_oauth_token env s).st).2⟩ := by
  have hok : ¬r0.ok = false := by
    rcases hs with h | h <;> simp [Resp.ok, h]
  unfold authenticate
  rw [authLoop_succ_some]
  dsimp only
  rw [if_neg hok, if_pos hs]
  rfl

theorem authSuccess_conn (r : Resp) (s : RingState) :
    (authSuccess r s).1.is_connected = some true := by
  unfold authSuccess
  dsimp only
  split <;> split <;> rfl

theorem authSuccess_params_201 (r : Resp) (s : RingState) (h : r.status_code = 201) :
    (authSuccess r s).1.params = sessionParams r.profileToken := by
  unfold authSuccess
  rw [if_pos h]
  dsimp only
  split <;> rfl

/-- When every POST is answered with a 500, the `_authenticate` loop keeps
falling through the falsy-response `continue` until the budget is exhausted,
then raises the HTTP error of the last response with `is_connected` false. -/
theorem authLoop_allFail (env : OAuthEnv) (authT : Nat → Option Resp)
    (hT : ∀ i, ∃ r, authT i = some r ∧ r.status_code = 500) (fuel : Nat) :
    ∀ aIdx s r0, r0.status_code = 500 →
      (authLoop env authT none fuel aIdx s (some r0)).res = Except.error (Exc.httpError 500) ∧
      (authLoop env authT none fuel aIdx s (some r0)).st.is_connected = some false := by
  induction fuel with
  | zero =>
      intro aIdx s r0 h5
      unfold authLoop
      have hrs : raise_for_status (some r0) = Except.error (Exc.httpError 500) := by
        unfold raise_for_status
        dsimp only
        rw [if_pos (by omega), h5]
      rw [hrs]
      exact ⟨rfl, rfl⟩
  | succ fuel ih =>
      intro aIdx s r0 h5
      rw [authLoop_succ_none]
      obtain ⟨r, hr, hr5⟩ := hT aIdx
      rw [hr]
      dsimp only
      have hok : r.ok = false := by simp [Resp.ok, hr5]
      rw [if_pos hok]
      exact ih (aIdx + 1) _ r hr5

theorem auth_allFail (env : OAuthEnv) (authT : Nat → Option Resp)
    (attempts aIdx : Nat) (s : RingState)
    (hT : ∀ i, ∃ r, authT i = some r ∧ r.status_code = 500) :
    (authenticate env authT none attempts aIdx s).res = Except.error (Exc.httpError 500) ∧
    (authenticate env authT none attempts aIdx s).st.is_connected = some false := by
  unfold authenticate
  dsimp only
  rw [authLoop_succ_none]
  obtain ⟨r, hr, hr5⟩ := hT aIdx
  rw [hr]
  dsimp only
  have hok : r.ok = false := by simp [Resp.ok, hr5]
  rw [if_pos hok]
  exact authLoop_allFail env authT hT attempts (aIdx + 1) _ r hr5

/-! ### Lemmas about the `query` retry loop -/

theorem reqCount_cons_cons_append (e1 e2 : Ev) (l1 l2 : List Ev)
    (h1 : isReq e2 = false) (hl1 : l1.countP isReq = 0) :
    (e1 :: e2 :: (l1 ++ l2)).countP isReq ≤ l2.countP isReq + 1 := by
  simp only [List.countP_cons, List.countP_append, h1, hl1]
  by_cases h : isReq e1 = true <;> simp [h]

theorem reqCount_cons_le (e1 : Ev) (l : List Ev) :
    (e1 :: l).countP isReq ≤ l.countP isReq + 1 := by
  simp only [List.countP_cons]
  by_cases h : isReq e1 = true <;> simp [h]

/-- The `query` retry loop issues at most `fuel` requests. -/
theorem queryLoop_reqBound (env : OAuthEnv) (queryT : Nat → Resp) (authT : Nat → Option Resp)
    (method : Method) (raw : Bool) (extra : Params) (bearer : String) (fuel : Nat) :
    ∀ qIdx aIdx s,
      (queryLoop env queryT authT method raw extra bearer fuel qIdx aIdx s).tr.countP isReq ≤
        fuel := by
  induction fuel with
  | zero =>
      intro qIdx aIdx s
      simp [queryLoop]
  | succ fuel ih =>
      intro qIdx aIdx s
      unfold queryLoop
      dsimp only
      split
      · split
        · simp [List.countP_cons, isReq, authenticate_countP_req]
        · exact Nat.le_trans
            (reqCount_cons_cons_append _ _ _ _ rfl (authenticate_countP_req _ _ _ _ _ _))
            (Nat.succ_le_succ (ih _ _ _))
      · split
        · simp [List.countP_cons, isReq]
        · exact Nat.le_trans (reqCount_cons_le _ _) (Nat.succ_le_succ (ih _ _ _))

/-- Bound for the whole `query` call: at most `attempts + 1` requests are
issued inside the retry loop. -/
theorem query_reqBound (env : OAuthEnv) (queryT : Nat → Resp) (authT : Nat → Option Resp)
    (method : Method) (raw : Bool) (extra : Params) (attempts aIdx : Nat) (s : RingState) :
    reqCount (query env queryT authT method raw extra attempts aIdx s).tr ≤ attempts + 1 := by
  unfold query reqCount
  dsimp only
  split
  · split
    · simp [authenticate_countP_req]
    · simp only [List.countP_append, authenticate_countP_req, oauth_countP_req,
        Nat.add_zero, Nat.zero_add]
      exact queryLoop_reqBound env queryT authT method raw extra _ (attempts + 1) 0 _ _
  · simp only [List.countP_append, oauth_countP_req, Nat.add_zero, Nat.zero_add]
    exact queryLoop_reqBound env queryT authT method raw extra _ (attempts + 1) 0 _ _

/-- With `debug` off, `query` skips the proactive re-authentication. -/
theorem query_nodebug (env : OAuthEnv) (queryT : Nat → Resp) (authT : Nat → Option Resp)
    (method : Method) (raw : Bool) (extra : Params) (attempts aIdx : Nat) (s : RingState)
    (hd : s.debug = false) :
    query env queryT authT method raw extra attempts aIdx s =
      (let o := get_oauth_token env s
       let k := queryLoop env queryT authT method raw extra o.tok (attempts + 1) 0 aIdx o.st
       ⟨k.res, k.st, k.aIdx, o.tr ++ k.tr⟩) := by
  unfold query
  rw [hd]
  rfl

/-- With `debug` on and the object not connected, `query` first runs a full
`_authenticate`. -/
theorem query_debug_disc (env : OAuthEnv) (queryT : Nat → Resp) (authT : Nat → Option Resp)
    (method : Method) (raw : Bool) (extra : Params) (attempts aIdx : Nat) (s : RingState)
    (hd : s.debug = true) (hc : connTruthy s.is_connected = false) :
    query env queryT authT method raw extra attempts aIdx s =
      (let a := authenticate env authT none RETRY_TOKEN aIdx s
       match a.res with
       | Except.error e => ⟨Except.error e, a.st, a.aIdx, a.tr⟩
       | Except.ok _ =>
           let o := get_oauth_token env a.st
           let k := queryLoop env queryT authT method raw extra o.tok (attempts + 1) 0 a.aIdx o.st
           ⟨k.res, k.st, k.aIdx, a.tr ++ o.tr ++ k.tr⟩) := by
  unfold query
  rw [hd, hc]
  rfl

/-- If no response inside the retry loop ever has status 200 or 204, and
every re-authentication succeeds, the loop exhausts its budget and the
result is `none`. -/
theorem queryLoop_soft (env : OAuthEnv) (queryT : Nat → Resp) (authT : Nat → Option Resp)
    (method : Method) (raw : Bool) (extra : Params) (bearer : String)
    (Hq : ∀ i, (queryT i).status_code ≠ 200 ∧ (queryT i).status_code ≠ 204)
    (Ha : ∀ j, ∃ r, authT j = some r ∧ (r.status_code = 200 ∨ r.status_code = 201))
    (fuel : Nat) :
    ∀ qIdx aIdx s,
      (queryLoop env queryT authT method raw extra bearer fuel qIdx aIdx s).res =
        Except.ok none := by
  induction fuel with
  | zero =>
      intro qIdx aIdx s
      rfl
  | succ fuel ih =>
      intro qIdx aIdx s
      unfold queryLoop
      dsimp only
      by_cases h401 : (queryT qIdx).status_code = 401
      · rw [if_pos h401]
        obtain ⟨r, hr, hsc⟩ := Ha aIdx
        rw [auth_first_success env authT RETRY_TOKEN aIdx _ r hr hsc]
        dsimp only
        exact ih _ _ _
      · rw [if_neg h401, if_neg (fun hc => hc.elim (Hq qIdx).1 (Hq qIdx).2)]
        exact ih _ _ _

theorem ok_of_200 (r : Resp) (h : r.status_code = 200) : r.ok = true := by
  simp [Resp.ok, h]

/-- A raw GET whose first in-loop response is a 200 returns that response
directly, touching nothing but the OAuth fields of the state. -/
theorem query_raw200 (env : OAuthEnv) (queryT : Nat → Resp) (authT : Nat → Option Resp)
    (method : Method) (attempts aIdx : Nat) (s : RingState)
    (hd : s.debug = false) (h200 : (queryT 0).status_code = 200) :
    query env queryT authT method true [] attempts aIdx s =
      ⟨Except.ok (some (QRes.raw (queryT 0))), (get_oauth_token env s).st, aIdx,
        (get_oauth_token env s).tr ++
          [Ev.request method (get_oauth_token env s).tok (get_oauth_token env s).st.params]⟩ := by
  rw [query_nodebug env queryT authT method true [] attempts aIdx s hd]
  dsimp only
  unfold queryLoop
  dsimp only
  rw [if_neg (by simp [h200]), if_pos (Or.inl h200)]
  rfl

/-! ### Claims C4 and C5 -/

/-- Claim C4 (confirmed): a `query` call that never sees a 200 or 204 inside
its retry loop — any mix of 401s (with re-authentication succeeding) and
other statuses — returns `none` after exhausting its budget instead of
raising an exception; this covers both the "only other statuses" case and
the "budget exhausted" case of the soft-failure contract. -/
theorem claim_C4 (env : OAuthEnv) (queryT : Nat → Resp) (authT : Nat → Option Resp)
    (method : Method) (raw : Bool) (extra : Params) (attempts aIdx : Nat) (s : RingState)
    (Hq : ∀ i, (queryT i).status_code ≠ 200 ∧ (queryT i).status_code ≠ 204)
    (Ha : ∀ j, ∃ r, authT j = some r ∧ (r.status_code = 200 ∨ r.status_code = 201)) :
    (query env queryT authT method raw extra attempts aIdx s).res = Except.ok none := by
  unfold query
  dsimp only
  split
  · obtain ⟨r, hr, hsc⟩ := Ha aIdx
    rw [auth_first_success env authT RETRY_TOKEN aIdx s r hr hsc]
    dsimp only
    exact queryLoop_soft env queryT authT method raw extra _ Hq Ha (attempts + 1) 0 _ _
  · exact queryLoop_soft env queryT authT method raw extra _ Hq Ha (attempts + 1) 0 _ _

/-- Witness for C4: an all-500 transport with a 201-answering auth endpoint. -/
theorem claim_C4_witness :
    (query ⟨⟨"A", "rA", 3600⟩, ⟨"B", "rB", 3600⟩, 0⟩ (fun _ => ⟨500, "", none⟩)
        (fun _ => some ⟨201, "", some "T"⟩) Method.GET false [] 3 0
        (initState "u" false true false)).res = Except.ok none :=
  claim_C4 ⟨⟨"A", "rA", 3600⟩, ⟨"B", "rB", 3600⟩, 0⟩ (fun _ => ⟨500, "", none⟩)
    (fun _ => some ⟨201, "", some "T"⟩) Method.GET false [] 3 0
    (initState "u" false true false)
    (fun _ => ⟨by simp, by simp⟩)
    (fun _ => ⟨⟨201, "", some "T"⟩, rfl, Or.inr rfl⟩)

/-- Claim C5 (confirmed): with `raw` not requested and a 200 response, a GET
returns the parsed JSON body while a POST or PUT returns `none` without any
body parsing — the GET-only JSON-decoding asymmetry. -/
theorem claim_C5 (env : OAuthEnv) (queryT : Nat → Resp) (authT : Nat → Option Resp)
    (attempts aIdx : Nat) (s : RingState)
    (hd : s.debug = false) (h200 : (queryT 0).status_code = 200) :
    (query env queryT authT Method.GET false [] attempts aIdx s).res =
        Except.ok (some (QRes.json (queryT 0).jsonBody)) ∧
    (query env queryT authT Method.POST false [] attempts aIdx s).res = Except.ok none ∧
    (query env queryT authT Method.PUT false [] attempts aIdx s).res = Except.ok none := by
  refine ⟨?_, ?_, ?_⟩ <;>
  · rw [query_nodebug env queryT authT _ false [] attempts aIdx s hd]
    dsimp only
    unfold queryLoop
    dsimp only
    rw [if_neg (by simp [h200]), if_pos (Or.inl h200)]
    rfl

/-- Witness for C5 at a concrete 200-with-body transport. -/
theorem claim_C5_witness :
    (query ⟨⟨"A", "rA", 3600⟩, ⟨"B", "rB", 3600⟩, 0⟩ (fun _ => ⟨200, "BODY", none⟩)
        (fun _ => some ⟨201, "", some "T"⟩) Method.GET false [] 3 0
        (initState "u" false true false)).res = Except.ok (some (QRes.json "BODY")) ∧
    (query ⟨⟨"A", "rA", 3600⟩, ⟨"B", "rB", 3600⟩, 0⟩ (fun _ => ⟨200, "BODY", none⟩)
        (fun _ => some ⟨201, "", some "T"⟩) Method.POST false [] 3 0
        (initState "u" false true false)).res = Except.ok none ∧
    (query ⟨⟨"A", "rA", 3600⟩, ⟨"B", "rB", 3600⟩, 0⟩ (fun _ => ⟨200, "BODY", none⟩)
        (fun _ => some ⟨201, "", some "T"⟩) Method.PUT false [] 3 0
        (initState "u" false true false)).res = Except.ok none :=
  claim_C5 ⟨⟨"A", "rA", 3600⟩, ⟨"B", "rB", 3600⟩, 0⟩ (fun _ => ⟨200, "BODY", none⟩)
    (fun _ => some ⟨201, "", some "T"⟩) 3 0 (initState "u" false true false) rfl rfl

/-! ### Claims C2 and C3 -/

/-- Claim C3 (confirmed): if `_authenticate` exhausts its attempt budget
without a 200 or 201 response — here every response has status 500 — then
the underlying HTTP error is raised to the caller instead of returning
normally, and `is_connected` is false afterward. -/
theorem claim_C3 (env : OAuthEnv) (authT : Nat → Option Resp)
    (attempts aIdx : Nat) (s : RingState)
    (hT : ∀ i, ∃ r, authT i = some r ∧ r.status_code = 500) :
    (authenticate env authT none attempts aIdx s).res = Except.error (Exc.httpError 500) ∧
    (authenticate env authT none attempts aIdx s).st.is_connected = some false :=
  auth_allFail env authT attempts aIdx s hT

/-- Witness for C3 at a concrete transport that always answers 500. -/
theorem claim_C3_witness :
    (authenticate ⟨⟨"A", "rA", 3600⟩, ⟨"B", "rB", 3600⟩, 0⟩
        (fun _ => some ⟨500, "", none⟩) none 3 0 (initState "u" false true false)).res =
      Except.error (Exc.httpError 500) ∧
    (authenticate ⟨⟨"A", "rA", 3600⟩, ⟨"B", "rB", 3600⟩, 0⟩
        (fun _ => some ⟨500, "", none⟩) none 3 0 (initState "u" false true false)).st.is_connected =
      some false :=
  claim_C3 ⟨⟨"A", "rA", 3600⟩, ⟨"B", "rB", 3600⟩, 0⟩ (fun _ => some ⟨500, "", none⟩) 3 0
    (initState "u" false true false) (fun _ => ⟨⟨500, "", none⟩, rfl, rfl⟩)

/-- Claim C2 counterexample: from a fresh state (no OAuth token yet), the
first `_get_oauth_token` call fetches a token but does not set
`last_refresh`, so the immediately following second call treats the token as
expired: it issues a `refresh_tokens` network call and returns a different
access token — the claim fails at this concrete input. -/
theorem claim_C2_counterexample :
    (get_oauth_token ⟨⟨"A", "rA", 3600⟩, ⟨"B", "rB", 3600⟩, 0⟩
        ((get_oauth_token ⟨⟨"A", "rA", 3600⟩, ⟨"B", "rB", 3600⟩, 0⟩
          (initState "u" false true false)).st)).tok ≠
      (get_oauth_token ⟨⟨"A", "rA", 3600⟩, ⟨"B", "rB", 3600⟩, 0⟩
        (initState "u" false true false)).tok ∧
    (get_oauth_token ⟨⟨"A", "rA", 3600⟩, ⟨"B", "rB", 3600⟩, 0⟩
        ((get_oauth_token ⟨⟨"A", "rA", 3600⟩, ⟨"B", "rB", 3600⟩, 0⟩
          (initState "u" false true false)).st)).tr = [Ev.refreshTokens] := by
  exact ⟨by decide, rfl⟩

/-- Claim C2 (amended): once a token exists and `last_refresh` is set with
the token still inside its validity window, `_get_oauth_token` returns the
same access token with no fetch and no refresh, and leaves the state
unchanged — so an immediately following second call is literally the same
call and also performs no network refresh.  (From a fresh state the claim
fails: the initial fetch does not set `last_refresh`, so the second call
refreshes; see the counterexample.) -/
theorem claim_C2_amended (env : OAuthEnv) (s : RingState) (a : AuthTok) (lr : Nat)
    (hA : s.auth = some a) (hL : s.last_refresh = some lr)
    (hv : env.now < lr + a.expires_in) :
    (get_oauth_token env s).tok = a.access_token ∧
    (get_oauth_token env s).tr = [] ∧
    get_oauth_token env ((get_oauth_token env s).st) = get_oauth_token env s := by
  have h := oauth_valid env s a lr hA hL hv
  rw [h]
  exact ⟨rfl, rfl, h⟩

/-! ### Claim C10 -/

theorem authBeforeReq_cons (e : Ev) (tr : List Ev) :
    authBeforeReq (e :: tr) =
      if isReq e then 0
      else if isAuthCall e then authBeforeReq tr + 1
      else authBeforeReq tr := rfl

theorem authBeforeReq_append_clean (l1 l2 : List Ev)
    (h : ∀ e ∈ l1, isReq e = false ∧ isAuthCall e = false) :
    authBeforeReq (l1 ++ l2) = authBeforeReq l2 := by
  induction l1 with
  | nil => rfl
  | cons e l ih =>
      have he := h e (List.mem_cons_self _ _)
      rw [List.cons_append, authBeforeReq_cons, he.1, he.2]
      simp only [Bool.false_eq_true, if_false]
      exact ih (fun x hx => h x (List.mem_cons_of_mem _ hx))

theorem authBeforeReq_clean_zero (l : List Ev)
    (h : ∀ e ∈ l, isReq e = false ∧ isAuthCall e = false) : authBeforeReq l = 0 := by
  have h2 := authBeforeReq_append_clean l [] h
  simpa using h2

/-- The first event of a (non-empty) `query` retry loop trace is always the
request itself, so no `_authenticate` call precedes it. -/
theorem queryLoop_authBeforeReq (env : OAuthEnv) (queryT : Nat → Resp)
    (authT : Nat → Option Resp) (method : Method) (raw : Bool) (extra : Params)
    (bearer : String) (fuel qIdx aIdx : Nat) (s : RingState) :
    authBeforeReq
      (queryLoop env queryT authT method raw extra bearer (fuel + 1) qIdx aIdx s).tr = 0 := by
  unfold queryLoop
  dsimp only
  split
  · split <;> rfl
  · split <;> rfl

/-- Claim C10 (confirmed): the proactive re-authentication before the first
in-loop request happens exactly when debug mode is enabled and the object is
not connected; with debug disabled no `_authenticate` call ever precedes the
first request (re-authentication can then only happen after a 401 inside the
loop). -/
theorem claim_C10 :
    (∀ (env : OAuthEnv) (queryT : Nat → Resp) (authT : Nat → Option Resp) (method : Method)
        (raw : Bool) (extra : Params) (attempts aIdx : Nat) (s : RingState),
      s.debug = false →
        authBeforeReq (query env queryT authT method raw extra attempts aIdx s).tr = 0) ∧
    (∀ (env : OAuthEnv) (queryT : Nat → Resp) (authT : Nat → Option Resp) (method : Method)
        (raw : Bool) (extra : Params) (attempts aIdx : Nat) (s : RingState),
      s.debug = true → connTruthy s.is_connected = false →
        authBeforeReq (query env queryT authT method raw extra attempts aIdx s).tr = 1) := by
  constructor
  · intro env queryT authT method raw extra attempts aIdx s hd
    rw [query_nodebug env queryT authT method raw extra attempts aIdx s hd]
    dsimp only
    rw [authBeforeReq_append_clean _ _
      (fun e he => ⟨(oauth_tr_clean env s e he).1, (oauth_tr_clean env s e he).2.1⟩)]
    exact queryLoop_authBeforeReq env queryT authT method raw extra _ attempts 0 aIdx _
  · intro env queryT authT method raw extra attempts aIdx s hd hc
    rw [query_debug_disc env queryT authT method raw extra attempts aIdx s hd hc]
    dsimp only
    rcases hres : (authenticate env authT none RETRY_TOKEN aIdx s).res with e | b
    · dsimp only
      rw [authenticate_tr, authBeforeReq_cons]
      rw [show isReq Ev.authenticateCall = false from rfl,
        show isAuthCall Ev.authenticateCall = true from rfl]
      simp only [Bool.false_eq_true, if_false, if_true]
      rw [authBeforeReq_clean_zero _
        (fun x hx => authLoop_tr_clean env authT none _ _ _ _ x hx)]
    · dsimp only
      rw [authenticate_tr, List.cons_append, List.cons_append, authBeforeReq_cons]
      rw [show isReq Ev.authenticateCall = false from rfl,
        show isAuthCall Ev.authenticateCall = true from rfl]
      simp only [Bool.false_eq_true, if_false, if_true]
      rw [List.append_assoc, authBeforeReq_append_clean _ _
        (fun x hx => authLoop_tr_clean env authT none _ _ _ _ x hx)]
      rw [authBeforeReq_append_clean _ _
        (fun e he => ⟨(oauth_tr_clean env _ e he).1, (oauth_tr_clean env _ e he).2.1⟩)]
      rw [queryLoop_authBeforeReq]

/-- Witness for the two sides of C10 at concrete disconnected states. -/
theorem claim_C10_witness :
    authBeforeReq (query ⟨⟨"A", "rA", 3600⟩, ⟨"B", "rB", 3600⟩, 0⟩ (fun _ => ⟨500, "", none⟩)
      (fun _ => some ⟨201, "", some "T"⟩) Method.GET false [] 1 0
      ⟨some false, some "t0", [], none, none, ⟨some "u", none, none⟩, false, "u", false,
        false⟩).tr = 0 ∧
    authBeforeReq (query ⟨⟨"A", "rA", 3600⟩, ⟨"B", "rB", 3600⟩, 0⟩ (fun _ => ⟨500, "", none⟩)
      (fun _ => some ⟨201, "", some "T"⟩) Method.GET false [] 1 0
      ⟨some false, some "t0", [], none, none, ⟨some "u", none, none⟩, true, "u", false,
        false⟩).tr = 1 :=
  ⟨claim_C10.1 ⟨⟨"A", "rA", 3600⟩, ⟨"B", "rB", 3600⟩, 0⟩ (fun _ => ⟨500, "", none⟩)
      (fun _ => some ⟨201, "", some "T"⟩) Method.GET false [] 1 0
      ⟨some false, some "t0", [], none, none, ⟨some "u", none, none⟩, false, "u", false, false⟩
      rfl,
    claim_C10.2 ⟨⟨"A", "rA", 3600⟩, ⟨"B", "rB", 3600⟩, 0⟩ (fun _ => ⟨500, "", none⟩)
      (fun _ => some ⟨201, "", some "T"⟩) Method.GET false [] 1 0
      ⟨some false, some "t0", [], none, none, ⟨some "u", none, none⟩, true, "u", false, false⟩
      rfl rfl⟩

/-! ### Claim C9: dictionary lemmas and parameter persistence -/

theorem dlookup_dinsert_self (k : String) (v : Option String) (d : Params) :
    dlookup (dinsert k v d) k = some v := by
  induction d with
  | nil => simp [dinsert, dlookup]
  | cons kv d ih =>
      rcases kv with ⟨k0, v0⟩
      by_cases h : k0 = k
      · subst h
        simp [dinsert, dlookup]
      · simp only [dinsert, if_neg h, dlookup]
        exact ih

theorem dlookup_dinsert_ne (k k1 : String) (v : Option String) (d : Params)
    (h : ¬k = k1) :
    dlookup (dinsert k v d) k1 = dlookup d k1 := by
  induction d with
  | nil =>
      simp only [dinsert, dlookup]
      rw [if_neg h]
  | cons kv d ih =>
      rcases kv with ⟨k0, v0⟩
      by_cases h0 : k0 = k
      · subst h0
        simp only [dinsert, if_pos rfl, dlookup]
        rw [if_neg h, if_neg h]
      · simp only [dinsert, if_neg h0, dlookup]
        by_cases h1 : k0 = k1
        · rw [if_pos h1, if_pos h1]
        · rw [if_neg h1, if_neg h1, ih]

theorem dlookup_dupdate_not_mem (e : Params) (k1 : String)
    (h : ∀ kv ∈ e, ¬kv.1 = k1) :
    ∀ d, dlookup (dupdate d e) k1 = dlookup d k1 := by
  induction e with
  | nil => intro d; rfl
  | cons kv e ih =>
      rcases kv with ⟨k0, v0⟩
      intro d
      show dlookup (dupdate (dinsert k0 v0 d) e) k1 = dlookup d k1
      rw [ih (fun kv2 hk2 => h kv2 (List.mem_cons_of_mem _ hk2)) (dinsert k0 v0 d)]
      exact dlookup_dinsert_ne k0 k1 v0 d (h (k0, v0) (List.mem_cons_self _ _))

/-- Merging `extra_params` into a dict gives the extras precedence: any
binding of the (duplicate-free) extras is found in the merged dict. -/
theorem dlookup_dupdate_of_mem (e : Params) (k1 : String) (v : Option String)
    (hnd : (e.map Prod.fst).Nodup) (h : dlookup e k1 = some v) :
    ∀ d, dlookup (dupdate d e) k1 = some v := by
  induction e with
  | nil => simp [dlookup] at h
  | cons kv e ih =>
      rcases kv with ⟨k0, v0⟩
      intro d
      show dlookup (dupdate (dinsert k0 v0 d) e) k1 = some v
      by_cases h0 : k0 = k1
      · have hv : v0 = v := by
          simp only [dlookup, if_pos h0] at h
          exact Option.some.inj h
        have hnotin : k0 ∉ e.map Prod.fst := (List.nodup_cons.1 hnd).1
        have hkeys : ∀ kv2 ∈ e, ¬kv2.1 = k1 := by
          intro kv2 hk2 hc
          exact hnotin (h0 ▸ hc ▸ List.mem_map_of_mem Prod.fst hk2)
        rw [dlookup_dupdate_not_mem e k1 hkeys (dinsert k0 v0 d)]
        subst h0
        rw [dlookup_dinsert_self, hv]
      · have h2 : dlookup e k1 = some v := by
          simp only [dlookup, if_neg h0] at h
          exact h
        exact ih (List.nodup_cons.1 hnd).2 h2 (dinsert k0 v0 d)

/-- Parameter persistence through the retry loop: provided the loop does not
end its final iteration on a 401 and every nested re-authentication
succeeds, every binding of the (non-empty, duplicate-free) extras is present
in `self.params` when the loop finishes. -/
theorem queryLoop_params_keep (env : OAuthEnv) (queryT : Nat → Resp)
    (authT : Nat → Option Resp) (method : Method) (raw : Bool) (extra : Params)
    (bearer : String)
    (Ha : ∀ j, ∃ r, authT j = some r ∧ (r.status_code = 200 ∨ r.status_code = 201))
    (hne : ¬extra = [])
    (hnd : (extra.map Prod.fst).Nodup)
    (k1 : String) (v : Option String) (hk : dlookup extra k1 = some v) (fuel : Nat) :
    ∀ qIdx aIdx s, endsOn401 queryT (fuel + 1) qIdx = false →
      dlookup
        (queryLoop env queryT authT method raw extra bearer (fuel + 1) qIdx aIdx s).st.params
        k1 = some v := by
  have hE : extra.isEmpty = false := by
    cases extra
    · exact absurd rfl hne
    · rfl
  induction fuel with
  | zero =>
      intro qIdx aIdx s hend
      unfold queryLoop
      dsimp only
      rw [hE]
      simp only [Bool.false_eq_true, if_false]
      by_cases h401 : (queryT qIdx).status_code = 401
      · exfalso
        unfold endsOn401 at hend
        rw [h401] at hend
        simp at hend
      · rw [if_neg h401]
        by_cases hbreak : (queryT qIdx).status_code = 200 ∨ (queryT qIdx).status_code = 204
        · rw [if_pos hbreak]
          exact dlookup_dupdate_of_mem extra k1 v hnd hk s.params
        · rw [if_neg hbreak]
          exact dlookup_dupdate_of_mem extra k1 v hnd hk s.params
  | succ fuel ih =>
      intro qIdx aIdx s hend
      unfold queryLoop
      dsimp only
      rw [hE]
      simp only [Bool.false_eq_true, if_false]
      by_cases h401 : (queryT qIdx).status_code = 401
      · rw [if_pos h401]
        obtain ⟨r, hr, hsc⟩ := Ha aIdx
        rw [auth_first_success env authT RETRY_TOKEN aIdx _ r hr hsc]
        dsimp only
        refine ih (qIdx + 1) (aIdx + 1) _ ?_
        unfold endsOn401 at hend
        rw [if_neg (by simp [h401])] at hend
        exact hend
      · rw [if_neg h401]
        by_cases hbreak : (queryT qIdx).status_code = 200 ∨ (queryT qIdx).status_code = 204
        · rw [if_pos hbreak]
          exact dlookup_dupdate_of_mem extra k1 v hnd hk s.params
        · rw [if_neg hbreak]
          refine ih (qIdx + 1) aIdx _ ?_
          unfold endsOn401 at hend
          rw [if_neg hbreak] at hend
          exact hend

/-- The first request of a `query` call issued with no extras carries the
current persistent `self.params` unchanged. -/
theorem query_first_request (env : OAuthEnv) (queryT : Nat → Resp)
    (authT : Nat → Option Resp) (method : Method) (raw : Bool) (attempts aIdx : Nat)
    (s : RingState) (hd : s.debug = false) :
    (requestEvents (query env queryT authT method raw [] attempts aIdx s).tr).head? =
      some (method, (get_oauth_token env s).tok, s.params) := by
  rw [query_nodebug env queryT authT method raw [] attempts aIdx s hd]
  dsimp only
  unfold requestEvents
  rw [List.filterMap_append]
  have h0 : (get_oauth_token env s).tr.filterMap (fun e =>
      match e with
      | Ev.request m b p => some (m, b, p)
      | _ => none) = [] := by
    rcases oauth_tr_cases env s with h | h | h <;> rw [h] <;> rfl
  rw [h0, List.nil_append]
  rw [← oauth_st_params env s]
  unfold queryLoop
  dsimp only
  split
  · split <;> rfl
  · split <;> rfl

/-- Claim C9 (amended): extras are merged into the persistent parameter set
with extras taking precedence, and the merge survives the call — a later
`query` without extras sends the previously merged parameters — provided the
call does not end its final iteration on a 401 (a 401-triggered
re-authentication rebuilds `self.params` from scratch, and if the budget is
exhausted right after, the extras are gone). -/
theorem claim_C9_amended (env : OAuthEnv) (queryT : Nat → Resp) (authT : Nat → Option Resp)
    (method : Method) (raw : Bool) (extra : Params) (attempts aIdx : Nat) (s : RingState)
    (hd : s.debug = false)
    (hne : ¬extra = [])
    (hnd : (extra.map Prod.fst).Nodup)
    (Ha : ∀ j, ∃ r, authT j = some r ∧ (r.status_code = 200 ∨ r.status_code = 201))
    (hend : endsOn401 queryT (attempts + 1) 0 = false) :
    (∀ k v, dlookup extra k = some v → dlookup (dupdate s.params extra) k = some v) ∧
    (∀ k v, dlookup extra k = some v →
      dlookup (query env queryT authT method raw extra attempts aIdx s).st.params k = some v) ∧
    (∀ (env2 : OAuthEnv) (queryT2 : Nat → Resp) (authT2 : Nat → Option Resp) (m2 : Method)
        (raw2 : Bool) (att2 aIdx2 : Nat) (s2 : RingState), s2.debug = false →
      (requestEvents (query env2 queryT2 authT2 m2 raw2 [] att2 aIdx2 s2).tr).head? =
        some (m2, (get_oauth_token env2 s2).tok, s2.params)) := by
  refine ⟨?_, ?_, ?_⟩
  · intro k v hkv
    exact dlookup_dupdate_of_mem extra k v hnd hkv s.params
  · intro k v hkv
    rw [query_nodebug env queryT authT method raw extra attempts aIdx s hd]
    dsimp only
    exact queryLoop_params_keep env queryT authT method raw extra _ Ha hne hnd k v hkv
      attempts 0 aIdx _ hend
  · intro env2 queryT2 authT2 m2 raw2 att2 aIdx2 s2 hd2
    exact query_first_request env2 queryT2 authT2 m2 raw2 att2 aIdx2 s2 hd2

/-- Counterexample for C9 as stated: with `attempts = 0` and a 401 response,
the re-authentication inside the loop rebuilds `self.params` and the budget
is exhausted before any re-merge, so the extras are NOT in the persistent
parameter set after the call — the next call cannot send them. -/
theorem claim_C9_counterexample :
    (query ⟨⟨"A", "rA", 3600⟩, ⟨"B", "rB", 3600⟩, 0⟩ (fun _ => ⟨401, "", none⟩)
        (fun _ => some ⟨201, "", some "T"⟩) Method.GET false [("k", some "v")] 0 0
        ⟨some true, some "t0", [("api_version", some "9"), ("auth_token", some "t0")],
          some ⟨"A", "rA", 3600⟩, some 0, ⟨some "u", some "t0", none⟩, false, "u", false,
          false⟩).res = Except.ok none ∧
    dlookup (query ⟨⟨"A", "rA", 3600⟩, ⟨"B", "rB", 3600⟩, 0⟩ (fun _ => ⟨401, "", none⟩)
        (fun _ => some ⟨201, "", some "T"⟩) Method.GET false [("k", some "v")] 0 0
        ⟨some true, some "t0", [("api_version", some "9"), ("auth_token", some "t0")],
          some ⟨"A", "rA", 3600⟩, some 0, ⟨some "u", some "t0", none⟩, false, "u", false,
          false⟩).st.params "k" = none :=
  ⟨rfl, rfl⟩

/-- Witness for the amended C9: a call that breaks on a 200 keeps the merged
extra parameter in the persistent set. -/
theorem claim_C9_amended_witness :
    dlookup (query ⟨⟨"A", "rA", 3600⟩, ⟨"B", "rB", 3600⟩, 0⟩ (fun _ => ⟨200, "BODY", none⟩)
        (fun _ => some ⟨201, "", some "T"⟩) Method.GET false [("k", some "v")] 3 0
        ⟨some true, some "t0", [("api_version", some "9"), ("auth_token", some "t0")],
          some ⟨"A", "rA", 3600⟩, some 0, ⟨some "u", some "t0", none⟩, false, "u", false,
          false⟩).st.params "k" = some (some "v") :=
  (claim_C9_amended ⟨⟨"A", "rA", 3600⟩, ⟨"B", "rB", 3600⟩, 0⟩ (fun _ => ⟨200, "BODY", none⟩)
      (fun _ => some ⟨201, "", some "T"⟩) Method.GET false [("k", some "v")] 3 0
      ⟨some true, some "t0", [("api_version", some "9"), ("auth_token", some "t0")],
        some ⟨"A", "rA", 3600⟩, some 0, ⟨some "u", some "t0", none⟩, false, "u", false, false⟩
      rfl (by decide) (by decide)
      (fun _ => ⟨⟨201, "", some "T"⟩, rfl, Or.inr rfl⟩) (by decide)).2.1
    "k" (some "v") rfl

/-! ### Claim C1 -/

theorem countP_replicate_pos (p : Ev → Bool) (a : Ev) (n : Nat) (h : p a = true) :
    (List.replicate n a).countP p = n := by
  induction n with
  | zero => rfl
  | succ n ih =>
      rw [List.replicate_succ, List.countP_cons, h, ih]
      simp

theorem countP_replicate_neg (p : Ev → Bool) (a : Ev) (n : Nat) (h : p a = false) :
    (List.replicate n a).countP p = 0 := by
  induction n with
  | zero => rfl
  | succ n ih =>
      rw [List.replicate_succ, List.countP_cons, h, ih]
      simp

/-- When every remaining response avoids 401, 200 and 204, the retry loop
(without extras) just reissues the same request until its budget runs out
and returns `none`, leaving the state untouched. -/
theorem queryLoop_allOther (env : OAuthEnv) (queryT : Nat → Resp) (authT : Nat → Option Resp)
    (method : Method) (raw : Bool) (bearer : String) (s : RingState) (fuel : Nat) :
    ∀ qIdx aIdx,
      (∀ i, qIdx ≤ i → ¬(queryT i).status_code = 401 ∧ ¬(queryT i).status_code = 200 ∧
        ¬(queryT i).status_code = 204) →
      queryLoop env queryT authT method raw [] bearer fuel qIdx aIdx s =
        ⟨Except.ok none, s, aIdx, List.replicate fuel (Ev.request method bearer s.params)⟩ := by
  induction fuel with
  | zero =>
      intro qIdx aIdx H
      rfl
  | succ fuel ih =>
      intro qIdx aIdx H
      unfold queryLoop
      dsimp only
      rw [if_neg (H qIdx (Nat.le_refl qIdx)).1,
        if_neg (fun hc =>
          hc.elim (H qIdx (Nat.le_refl qIdx)).2.1 (H qIdx (Nat.le_refl qIdx)).2.2)]
      rw [if_pos (show ([] : Params).isEmpty = true from rfl)]
      dsimp only
      rw [ih (qIdx + 1) aIdx (fun i hi => H i (Nat.le_of_succ_le hi))]
      rfl

/-- One retry-loop iteration answered 401 (no extras): mark disconnected,
run a full `_authenticate`, and on success retry. -/
theorem queryLoop_succ_401 (env : OAuthEnv) (queryT : Nat → Resp) (authT : Nat → Option Resp)
    (method : Method) (raw : Bool) (bearer : String) (fuel qIdx aIdx : Nat) (s : RingState)
    (h401 : (queryT qIdx).status_code = 401) :
    queryLoop env queryT authT method raw [] bearer (fuel + 1) qIdx aIdx s =
      (let a := authenticate env authT none RETRY_TOKEN aIdx { s with is_connected := some false }
       match a.res with
       | Except.error e =>
           ⟨Except.error e, a.st, a.aIdx,
             Ev.request method bearer s.params :: Ev.setConnected false :: a.tr⟩
       | Except.ok _ =>
           let k := queryLoop env queryT authT method raw [] bearer fuel (qIdx + 1) a.aIdx a.st
           ⟨k.res, k.st, k.aIdx,
             Ev.request method bearer s.params :: Ev.setConnected false :: a.tr ++ k.tr⟩) := by
  conv_lhs => unfold queryLoop
  dsimp only
  rw [if_pos (show ([] : Params).isEmpty = true from rfl)]
  dsimp only
  rw [if_pos h401]

/-- One retry-loop iteration answered with a status that is none of 401, 200
and 204 (no extras): fall through to the next iteration. -/
theorem queryLoop_succ_other (env : OAuthEnv) (queryT : Nat → Resp) (authT : Nat → Option Resp)
    (method : Method) (raw : Bool) (bearer : String) (fuel qIdx aIdx : Nat) (s : RingState)
    (h401 : ¬(queryT qIdx).status_code = 401)
    (hbr : ¬((queryT qIdx).status_code = 200 ∨ (queryT qIdx).status_code = 204)) :
    queryLoop env queryT authT method raw [] bearer (fuel + 1) qIdx aIdx s =
      (let k := queryLoop env queryT authT method raw [] bearer fuel (qIdx + 1) aIdx s
       ⟨k.res, k.st, k.aIdx, Ev.request method bearer s.params :: k.tr⟩) := by
  conv_lhs => unfold queryLoop
  dsimp only
  rw [if_pos (show ([] : Params).isEmpty = true from rfl)]
  dsimp only
  rw [if_neg h401, if_neg hbr]

/-- Claim C1 (amended): first, for every call, the retry loop issues at most
`attempts + 1` requests (the Python loop `while loop <= attempts` runs one
extra iteration, so the bound of the claim is off by one).  Second, in a run
whose first response is a 401 and whose remaining responses are 500s, the
executor marks `is_connected` false, triggers exactly one `_authenticate`
call, and reissues the request with the freshly obtained session token in
its `auth_token` query parameter (the bearer header keeps the token computed
at entry), using exactly `attempts + 1` request attempts in total. -/
theorem claim_C1_amended :
    (∀ (env : OAuthEnv) (queryT : Nat → Resp) (authT : Nat → Option Resp) (method : Method)
        (raw : Bool) (extra : Params) (attempts aIdx : Nat) (s : RingState),
      reqCount (query env queryT authT method raw extra attempts aIdx s).tr ≤ attempts + 1) ∧
    (∀ (env : OAuthEnv) (queryT : Nat → Resp) (authT : Nat → Option Resp) (method : Method)
        (raw : Bool) (atp aIdx : Nat) (ic : Option Bool) (t0 : Option String) (p0 : Params)
        (a0 : AuthTok) (lr : Nat) (c0 : CacheRecord) (u : String) (rA : Resp) (newTok : String),
      env.now < lr + a0.expires_in →
      (queryT 0).status_code = 401 →
      (∀ i, 1 ≤ i → (queryT i).status_code = 500) →
      authT aIdx = some rA →
      rA.status_code = 201 →
      rA.profileToken = some newTok →
      let out := query env queryT authT method raw [] (atp + 1) aIdx
        ⟨ic, t0, p0, some a0, some lr, c0, false, u, false, false⟩
      authCount out.tr = 1 ∧
      Ev.setConnected false ∈ out.tr ∧
      (requestEvents out.tr).get? 0 = some (method, a0.access_token, p0) ∧
      (requestEvents out.tr).get? 1 =
        some (method, a0.access_token, sessionParams (some newTok)) ∧
      reqCount out.tr = atp + 2) := by
  constructor
  · intro env queryT authT method raw extra attempts aIdx s
    exact query_reqBound env queryT authT method raw extra attempts aIdx s
  · intro env queryT authT method raw atp aIdx ic t0 p0 a0 lr c0 u rA newTok
      hv h401 h500 hA h201 hprof
    dsimp only
    have hO : get_oauth_token env ⟨ic, t0, p0, some a0, some lr, c0, false, u, false, false⟩ =
        ⟨a0.access_token, ⟨ic, t0, p0, some a0, some lr, c0, false, u, false, false⟩, []⟩ :=
      oauth_valid env _ a0 lr rfl rfl hv
    have hO2 : get_oauth_token env
        ⟨some false, t0, p0, some a0, some lr, c0, false, u, false, false⟩ =
        ⟨a0.access_token, ⟨some false, t0, p0, some a0, some lr, c0, false, u, false, false⟩,
          []⟩ :=
      oauth_valid env _ a0 lr rfl rfl hv
    have hAS : authSuccess rA ⟨some false, t0, p0, some a0, some lr, c0, false, u, false, false⟩ =
        (⟨some true, some newTok, sessionParams (some newTok), some a0, some lr, c0, false, u,
          false, false⟩, [Ev.setConnected true]) := by
      unfold authSuccess
      rw [if_pos h201]
      dsimp only
      rw [hprof]
      rfl
    have hAuth : authenticate env authT none RETRY_TOKEN aIdx
        ⟨some false, t0, p0, some a0, some lr, c0, false, u, false, false⟩ =
        ⟨Except.ok true,
          ⟨some true, some newTok, sessionParams (some newTok), some a0, some lr, c0, false, u,
            false, false⟩, aIdx + 1,
          [Ev.authenticateCall, Ev.newSessionPost, Ev.setConnected true]⟩ := by
      rw [auth_first_success env authT RETRY_TOKEN aIdx _ rA hA (Or.inr h201), hO2]
      dsimp only
      rw [hAS]
      rfl
    rw [query_nodebug env queryT authT method raw [] (atp + 1) aIdx
      ⟨ic, t0, p0, some a0, some lr, c0, false, u, false, false⟩ rfl, hO]
    dsimp only
    rw [queryLoop_succ_401 env queryT authT method raw a0.access_token (atp + 1) 0 aIdx
      ⟨ic, t0, p0, some a0, some lr, c0, false, u, false, false⟩ h401]
    dsimp only
    rw [hAuth]
    dsimp only
    rw [queryLoop_succ_other env queryT authT method raw a0.access_token atp 1 (aIdx + 1)
      ⟨some true, some newTok, sessionParams (some newTok), some a0, some lr, c0, false, u,
        false, false⟩
      (by simp [h500 1 (Nat.le_refl 1)]) (by simp [h500 1 (Nat.le_refl 1)])]
    dsimp only
    rw [queryLoop_allOther env queryT authT method raw a0.access_token
      ⟨some true, some newTok, sessionParams (some newTok), some a0, some lr, c0, false, u,
        false, false⟩ atp 2 (aIdx + 1)
      (fun i hi => ⟨by simp [h500 i (by omega)], by simp [h500 i (by omega)],
        by simp [h500 i (by omega)]⟩)]
    dsimp only
    have hrepA : (List.replicate atp (Ev.request method a0.access_token
        (sessionParams (some newTok)))).countP isAuthCall = 0 :=
      countP_replicate_neg _ _ _ rfl
    have hrepR : (List.replicate atp (Ev.request method a0.access_token
        (sessionParams (some newTok)))).countP isReq = atp :=
      countP_replicate_pos _ _ _ rfl
    refine ⟨?_, ?_, ?_, ?_, ?_⟩
    · simp [authCount, List.countP_cons, List.countP_append, isAuthCall, hrepA]
    · simp
    · simp [requestEvents, List.filterMap_cons]
    · simp [requestEvents, List.filterMap_cons]
    · simp [reqCount, List.countP_cons, List.countP_append, isReq, hrepR]

/-- Counterexample for C1 as stated: with `attempts = 0` the claim allows at
most zero request attempts, but the loop condition `loop <= attempts` admits
one iteration, so one request is issued. -/
theorem claim_C1_counterexample :
    reqCount (query ⟨⟨"A", "rA", 3600⟩, ⟨"B", "rB", 3600⟩, 0⟩ (fun _ => ⟨401, "", none⟩)
      (fun _ => some ⟨201, "", some "T"⟩) Method.GET false [] 0 0
      ⟨some true, some "t0", [("api_version", some "9"), ("auth_token", some "t0")],
        some ⟨"A", "rA", 3600⟩, some 0, ⟨some "u", some "t0", none⟩, false, "u", false,
        false⟩).tr = 1 := rfl

/-- Witness for the amended C1: the request bound at a concrete call, and
the full 401-then-500 scenario at `attempts = 1`. -/
theorem claim_C1_amended_witness :
    reqCount (query ⟨⟨"A", "rA", 3600⟩, ⟨"B", "rB", 3600⟩, 0⟩
      (fun i => if i = 0 then ⟨401, "", none⟩ else ⟨500, "", none⟩)
      (fun _ => some ⟨201, "", some "NEW"⟩) Method.GET false [] 1 0
      ⟨some true, some "t0", [("auth_token", some "t0")], some ⟨"A", "rA", 3600⟩, some 0,
        ⟨some "u", some "t0", none⟩, false, "u", false, false⟩).tr ≤ 2 ∧
    authCount (query ⟨⟨"A", "rA", 3600⟩, ⟨"B", "rB", 3600⟩, 0⟩
      (fun i => if i = 0 then ⟨401, "", none⟩ else ⟨500, "", none⟩)
      (fun _ => some ⟨201, "", some "NEW"⟩) Method.GET false [] 1 0
      ⟨some true, some "t0", [("auth_token", some "t0")], some ⟨"A", "rA", 3600⟩, some 0,
        ⟨some "u", some "t0", none⟩, false, "u", false, false⟩).tr = 1 ∧
    (requestEvents (query ⟨⟨"A", "rA", 3600⟩, ⟨"B", "rB", 3600⟩, 0⟩
      (fun i => if i = 0 then ⟨401, "", none⟩ else ⟨500, "", none⟩)
      (fun _ => some ⟨201, "", some "NEW"⟩) Method.GET false [] 1 0
      ⟨some true, some "t0", [("auth_token", some "t0")], some ⟨"A", "rA", 3600⟩, some 0,
        ⟨some "u", some "t0", none⟩, false, "u", false, false⟩).tr).get? 1 =
      some (Method.GET, "A", sessionParams (some "NEW")) ∧
    reqCount (query ⟨⟨"A", "rA", 3600⟩, ⟨"B", "rB", 3600⟩, 0⟩
      (fun i => if i = 0 then ⟨401, "", none⟩ else ⟨500, "", none⟩)
      (fun _ => some ⟨201, "", some "NEW"⟩) Method.GET false [] 1 0
      ⟨some true, some "t0", [("auth_token", some "t0")], some ⟨"A", "rA", 3600⟩, some 0,
        ⟨some "u", some "t0", none⟩, false, "u", false, false⟩).tr = 2 := by
  have h := claim_C1_amended.2 ⟨⟨"A", "rA", 3600⟩, ⟨"B", "rB", 3600⟩, 0⟩
    (fun i => if i = 0 then ⟨401, "", none⟩ else ⟨500, "", none⟩)
    (fun _ => some ⟨201, "", some "NEW"⟩) Method.GET false 0 0 (some true) (some "t0")
    [("auth_token", some "t0")] ⟨"A", "rA", 3600⟩ 0 ⟨some "u", some "t0", none⟩ "u"
    ⟨201, "", some "NEW"⟩ "NEW" (by decide) rfl
    (fun i hi => by
      have hne : ¬i = 0 := by omega
      simp [hne])
    rfl rfl rfl
  exact ⟨claim_C1_amended.1 ⟨⟨"A", "rA", 3600⟩, ⟨"B", "rB", 3600⟩, 0⟩
      (fun i => if i = 0 then ⟨401, "", none⟩ else ⟨500, "", none⟩)
      (fun _ => some ⟨201, "", some "NEW"⟩) Method.GET false [] 1 0
      ⟨some true, some "t0", [("auth_token", some "t0")], some ⟨"A", "rA", 3600⟩, some 0,
        ⟨some "u", some "t0", none⟩, false, "u", false, false⟩,
    h.1, h.2.2.2.1, h.2.2.2.2⟩

/-! ### Claims C6, C7 and C8 -/

/-- Claim C7 (confirmed): a cache record whose `account` does not match the
current username, or whose `token` is null (or whose `account` is null),
is treated exactly as an absent cache: construction performs the full
re-authentication, even when a token is present. -/
theorem claim_C7 (env : OAuthEnv) (queryT : Nat → Resp) (authT : Nat → Option Resp)
    (file : CacheFile) (aIdx : Nat) (s : RingState)
    (hex : exists_cache file = true)
    (hbad : (read_cache file).token = none ∨ (read_cache file).account = none ∨
      (read_cache file).account ≠ some s.username) :
    process_cached_session env queryT authT file aIdx s =
      authenticate env authT none RETRY_TOKEN aIdx { s with cache := read_cache file } := by
  unfold process_cached_session
  rw [if_pos hex]
  dsimp only
  rw [if_pos hbad]

/-- Witness for C7: a cache whose token is present but whose account does not
match the current username forces the full re-authentication. -/
theorem claim_C7_witness :
    process_cached_session ⟨⟨"A", "rA", 3600⟩, ⟨"B", "rB", 3600⟩, 0⟩
        (fun _ => ⟨200, "", none⟩) (fun _ => some ⟨201, "", some "T"⟩)
        (CacheFile.valid ⟨some "alice", some "tok", none⟩) 0 (initState "bob" false true false) =
      authenticate ⟨⟨"A", "rA", 3600⟩, ⟨"B", "rB", 3600⟩, 0⟩
        (fun _ => some ⟨201, "", some "T"⟩) none RETRY_TOKEN 0
        { initState "bob" false true false with cache := ⟨some "alice", some "tok", none⟩ } :=
  claim_C7 ⟨⟨"A", "rA", 3600⟩, ⟨"B", "rB", 3600⟩, 0⟩ (fun _ => ⟨200, "", none⟩)
    (fun _ => some ⟨201, "", some "T"⟩) (CacheFile.valid ⟨some "alice", some "tok", none⟩) 0
    (initState "bob" false true false) rfl (Or.inr (Or.inr (by decide)))

/-- Claim C8 (confirmed against the spec-modelled `_read_cache`): a corrupted
cache file is read back as the default record (all fields `none`), which the
construction flow then treats exactly as an absent cache, silently falling
back to the full authentication; no cache-related exception exists on this
path, and when authentication succeeds the construction returns normally. -/
theorem claim_C8 (env : OAuthEnv) (queryT : Nat → Resp) (authT : Nat → Option Resp)
    (aIdx : Nat) (s : RingState)
    (hA : ∃ r, authT aIdx = some r ∧ (r.status_code = 200 ∨ r.status_code = 201)) :
    process_cached_session env queryT authT CacheFile.corrupted aIdx s =
      authenticate env authT none RETRY_TOKEN aIdx { s with cache := emptyCacheRecord } ∧
    (process_cached_session env queryT authT CacheFile.corrupted aIdx s).res =
      Except.ok true := by
  have heq : process_cached_session env queryT authT CacheFile.corrupted aIdx s =
      authenticate env authT none RETRY_TOKEN aIdx { s with cache := emptyCacheRecord } := rfl
  refine ⟨heq, ?_⟩
  rw [heq]
  obtain ⟨r, hr, hsc⟩ := hA
  rw [auth_first_success env authT RETRY_TOKEN aIdx _ r hr hsc]

/-- Witness for C8 at a concrete corrupted cache file. -/
theorem claim_C8_witness :
    process_cached_session ⟨⟨"A", "rA", 3600⟩, ⟨"B", "rB", 3600⟩, 0⟩
        (fun _ => ⟨200, "", none⟩) (fun _ => some ⟨201, "", some "T"⟩)
        CacheFile.corrupted 0 (initState "u" false true false) =
      authenticate ⟨⟨"A", "rA", 3600⟩, ⟨"B", "rB", 3600⟩, 0⟩
        (fun _ => some ⟨201, "", some "T"⟩) none RETRY_TOKEN 0
        { initState "u" false true false with cache := emptyCacheRecord } ∧
    (process_cached_session ⟨⟨"A", "rA", 3600⟩, ⟨"B", "rB", 3600⟩, 0⟩
        (fun _ => ⟨200, "", none⟩) (fun _ => some ⟨201, "", some "T"⟩)
        CacheFile.corrupted 0 (initState "u" false true false)).res = Except.ok true :=
  claim_C8 ⟨⟨"A", "rA", 3600⟩, ⟨"B", "rB", 3600⟩, 0⟩ (fun _ => ⟨200, "", none⟩)
    (fun _ => some ⟨201, "", some "T"⟩) 0 (initState "u" false true false)
    ⟨⟨201, "", some "T"⟩, rfl, Or.inr rfl⟩

/-- Claim C6 (confirmed): constructing a session (defaults: `debug` off,
session reuse on) over a saved cache record with a matching username and a
non-null token, whose lightweight validation GET returns 200, confirms
authentication by passing that already-valid response to `_authenticate` as
the `session` argument: the construction succeeds, ends connected, and never
issues the password-authentication POST to the new-session endpoint. -/
theorem claim_C6 (env : OAuthEnv) (queryT : Nat → Resp) (authT : Nat → Option Resp)
    (u tk : String) (cauth : Option AuthTok) (persist : Bool)
    (h200 : (queryT 0).status_code = 200) :
    (ringInit env queryT authT (CacheFile.valid ⟨some u, some tk, cauth⟩) u false true
        persist).res = Except.ok true ∧
    (ringInit env queryT authT (CacheFile.valid ⟨some u, some tk, cauth⟩) u false true
        persist).st.is_connected = some true ∧
    postCount (ringInit env queryT authT (CacheFile.valid ⟨some u, some tk, cauth⟩) u false true
        persist).tr = 0 := by
  have h1 : ringInit env queryT authT (CacheFile.valid ⟨some u, some tk, cauth⟩) u false true
      persist =
      process_cached_session env queryT authT (CacheFile.valid ⟨some u, some tk, cauth⟩) 0
        (initState u false true persist) := rfl
  rw [h1]
  unfold process_cached_session
  rw [if_pos (show exists_cache (CacheFile.valid ⟨some u, some tk, cauth⟩) = true from rfl)]
  dsimp only [read_cache, initState]
  rw [if_neg (show ¬((some tk : Option String) = none ∨ (some u : Option String) = none ∨
    ¬(some u : Option String) = some u) from by simp)]
  rw [query_raw200 env queryT authT Method.GET RETRY_TOKEN 0
    ⟨none, some tk, sessionParams (some tk), cauth, none, ⟨some u, some tk, cauth⟩, false, u,
      true, persist⟩ rfl h200]
  dsimp only
  rw [if_pos ⟨ok_of_200 _ h200, h200⟩]
  rw [auth_with_session env authT RETRY_TOKEN 0 _ (queryT 0) (Or.inl h200)]
  refine ⟨rfl, ?_, ?_⟩
  · exact authSuccess_conn _ _
  · simp [postCount, List.countP_append, List.countP_cons, isPost,
      oauth_countP_post, authSuccess_countP_post]

/-- Witness for C6 at a concrete saved cache and a 200-answering device
listing endpoint. -/
theorem claim_C6_witness :
    (ringInit ⟨⟨"A", "rA", 3600⟩, ⟨"B", "rB", 3600⟩, 0⟩ (fun _ => ⟨200, "devices", none⟩)
        (fun _ => some ⟨201, "", some "T"⟩) (CacheFile.valid ⟨some "u", some "tok", none⟩)
        "u" false true false).res = Except.ok true ∧
    (ringInit ⟨⟨"A", "rA", 3600⟩, ⟨"B", "rB", 3600⟩, 0⟩ (fun _ => ⟨200, "devices", none⟩)
        (fun _ => some ⟨201, "", some "T"⟩) (CacheFile.valid ⟨some "u", some "tok", none⟩)
        "u" false true false).st.is_connected = some true ∧
    postCount (ringInit ⟨⟨"A", "rA", 3600⟩, ⟨"B", "rB", 3600⟩, 0⟩ (fun _ => ⟨200, "devices", none⟩)
        (fun _ => some ⟨201, "", some "T"⟩) (CacheFile.valid ⟨some "u", some "tok", none⟩)
        "u" false true false).tr = 0 :=
  claim_C6 ⟨⟨"A", "rA", 3600⟩, ⟨"B", "rB", 3600⟩, 0⟩ (fun _ => ⟨200, "devices", none⟩)
    (fun _ => some ⟨201, "", some "T"⟩) "u" "tok" none false rfl

/-- Witness for the amended C2 at a concrete valid-token state. -/
theorem claim_C2_amended_witness :
    (get_oauth_token ⟨⟨"A", "rA", 3600⟩, ⟨"B", "rB", 3600⟩, 10⟩
        ⟨some true, some "t0", [], some ⟨"A", "rA", 3600⟩, some 5, ⟨some "u", some "t0", none⟩,
          false, "u", true, false⟩).tok = "A" ∧
    (get_oauth_token ⟨⟨"A", "rA", 3600⟩, ⟨"B", "rB", 3600⟩, 10⟩
        ⟨some true, some "t0", [], some ⟨"A", "rA", 3600⟩, some 5, ⟨some "u", some "t0", none⟩,
          false, "u", true, false⟩).tr = [] ∧
    get_oauth_token ⟨⟨"A", "rA", 3600⟩, ⟨"B", "rB", 3600⟩, 10⟩
        ((get_oauth_token ⟨⟨"A", "rA", 3600⟩, ⟨"B", "rB", 3600⟩, 10⟩
          ⟨some true, some "t0", [], some ⟨"A", "rA", 3600⟩, some 5, ⟨some "u", some "t0", none⟩,
            false, "u", true, false⟩).st) =
      get_oauth_token ⟨⟨"A", "rA", 3600⟩, ⟨"B", "rB", 3600⟩, 10⟩
        ⟨some true, some "t0", [], some ⟨"A", "rA", 3600⟩, some 5, ⟨some "u", some "t0", none⟩,
          false, "u", true, false⟩ :=
  claim_C2_amended ⟨⟨"A", "rA", 3600⟩, ⟨"B", "rB", 3600⟩, 10⟩
    ⟨some true, some "t0", [], some ⟨"A", "rA", 3600⟩, some 5, ⟨some "u", some "t0", none⟩,
      false, "u", true, false⟩ ⟨"A", "rA", 3600⟩ 5 rfl rfl (by decide)

end RingModel
